import Mathlib

/-!
Shallow embedding of the `syn_codegen` generator
(`src/syn_codegen/src/main.rs`) and of the `unstable` example entry point
(`src/examples/unstable/src/lib.rs`), with theorems checking the
natural-language specification against the code.

Conventions of the embedding:
* `quote::Tokens` values are modelled as `String`s; the token renderings
  (`&x`, `&mut x`, `*x`, `_i.f`, ...) follow the `quote!` templates in the
  source.
* Literal braces of generated Rust text are written with the escapes
  `\x7b` / `\x7d`, and apostrophes with `\x27`.
* `first_arg` panics in the source on a malformed wrapper type; the panic
  is modelled as `none`, which its callers treat as "no match" (the panic
  is unreachable for the shapes any claim below talks about).
-/

namespace Syn

mutual

/-- `syn::PathArguments` restricted to what the classifier inspects. -/
inductive PathArguments where
  | noneA : PathArguments
  | angleBracketed (args : List GenericArgument) : PathArguments
  | otherArgs : PathArguments

/-- One generic argument (`syn::GenericArgument`). -/
inductive GenericArgument where
  | typeArg (ty : RsType) : GenericArgument
  | otherArg : GenericArgument

/-- One path segment (`syn::PathSegment`): an identifier plus arguments. -/
inductive PathSegment where
  | mk (ident : String) (arguments : PathArguments) : PathSegment

/-- A field's declared type (`syn::Type`): a path (with or without a
`qself`), or any other type form, which the classifier never matches. -/
inductive RsType where
  | pathT (qself : Bool) (segments : List PathSegment) : RsType
  | otherT : RsType

end

def PathSegment.ident : PathSegment → String
  | .mk i _ => i

def PathSegment.arguments : PathSegment → PathArguments
  | .mk _ a => a

/-- `last_segment` (main.rs 303-319): only a non-qself path has a usable
last segment; anything else yields `None`. -/
def last_segment : RsType → Option PathSegment
  | .pathT qself segments => if qself then none else segments.getLast?
  | .otherT => none

/-- `first_arg` (main.rs 372-386): the first angle-bracketed type argument.
The source panics when the arguments are not angle-bracketed, empty, or not
a type; the panic is modelled as `none`. -/
def first_arg : PathArguments → Option RsType
  | .angleBracketed args =>
      match args with
      | [] => none
      | a :: _ =>
          match a with
          | .typeArg ty => some ty
          | .otherArg => none
  | _ => none

/-- A field of a schema node (`syn::Field`): optional name, declared type. -/
structure Field where
  ident : Option String
  ty : RsType

/-- `syn::VariantData`: named fields, positional fields, or none. -/
inductive VariantData where
  | structV (fields : List Field) : VariantData
  | tupleV (fields : List Field) : VariantData
  | unitV : VariantData

/-- One enum variant (`syn::Variant`). -/
structure Variant where
  ident : String
  data : VariantData

/-- `syn::Body`: the shape of a declaration. -/
inductive Body where
  | enumB (variants : List Variant) : Body
  | structB (data : VariantData) : Body

/-- `syn::DeriveInput` restricted to the parts the generator reads. -/
structure DeriveInput where
  ident : String
  body : Body

/-- `AstItem` (main.rs 63-69): one schema node with its accumulated
feature tokens and the `#full` marker. -/
structure AstItem where
  item : DeriveInput
  features : String
  eos_full : Bool

/-- The lookup table (main.rs 80-81): a `BTreeMap<Ident, AstItem>`,
modelled as an association list strictly sorted by key. -/
abbrev Lookup := List (String × AstItem)

/-- `BTreeMap::get`: find the binding of a key. -/
def lookup_get (lookup : Lookup) (k : String) : Option AstItem :=
  match lookup with
  | [] => none
  | (k', v) :: rest => if k = k' then some v else lookup_get rest k

/-- `BTreeMap::insert`: ordered insert, replacing an existing binding.
Keeps the association list sorted by key, in the lexicographic order on
the identifier's characters (the order `Ord` gives `syn::Ident`). -/
def btInsert (k : String) (v : AstItem) : Lookup → Lookup
  | [] => [(k, v)]
  | (k', v') :: rest =>
      if k.data < k'.data then (k, v) :: (k', v') :: rest
      else if k = k' then (k, v) :: rest
      else (k', v') :: btInsert k v rest

/-- `under_name` (main.rs 298-301); the snake-case conversion models the
external `inflections` crate's `to_snake_case` on ASCII camel-case
identifiers. -/
def to_snake_case_aux : List Char → Bool → List Char
  | [], _ => []
  | c :: rest, isFirst =>
      if c.isUpper then
        (if isFirst then [c.toLower] else ['_', c.toLower]) ++
          to_snake_case_aux rest false
      else c :: to_snake_case_aux rest false

def under_name (name : String) : String :=
  ⟨to_snake_case_aux name.data true⟩

/-- Traversal kind (main.rs 321-326). -/
inductive Kind where
  | visitK : Kind
  | visitMutK : Kind
  | foldK : Kind
deriving DecidableEq

/-- `Operand` (main.rs 328-361). -/
inductive Operand where
  | borrowed (n : String) : Operand
  | owned (n : String) : Operand

def Operand.tokens : Operand → String
  | .borrowed n => n
  | .owned n => n

def Operand.ref_tokens : Operand → String
  | .borrowed n => n
  | .owned n => "&" ++ n

def Operand.ref_mut_tokens : Operand → String
  | .borrowed n => n
  | .owned n => "&mut " ++ n

def Operand.owned_tokens : Operand → String
  | .borrowed n => "*" ++ n
  | .owned n => n

/-- The `Display` of an `Operand` (main.rs 363-370) shows its tokens. -/
def Operand.display : Operand → String := Operand.tokens

/-- The `if let Some(val) = ... { return Some(build(val)) }` pattern of
the classifier levels: rebuild the success string, keep the `eos_full`
flag. -/
def wrapResult (build : String → String) :
    Option (String × Bool) → Option (String × Bool)
  | some (val, f) => some (build val, f)
  | none => none

/-- `simple_visit` (main.rs 388-417): level 1, direct lookup-table hit. -/
def simple_visit (type_name : String) (lookup : Lookup) (kind : Kind)
    (name : Operand) : Option (String × Bool) :=
  match lookup_get lookup type_name with
  | some s =>
      some (match kind with
        | .visitK =>
            "_visitor.visit_" ++ under_name type_name ++ "(" ++
              name.ref_tokens ++ ")"
        | .visitMutK =>
            "_visitor.visit_" ++ under_name type_name ++ "_mut(" ++
              name.ref_mut_tokens ++ ")"
        | .foldK =>
            "_visitor.fold_" ++ under_name type_name ++ "(" ++
              name.owned_tokens ++ ")",
        s.eos_full)
  | none => none

/-- `box_visit` (main.rs 419-451): level 2, `Box` indirection; the inner
type is resolved through level 1 only, and for `Fold` the folded owned
value is re-wrapped with `Box::new`. -/
def box_visit (seg : PathSegment) (lookup : Lookup) (kind : Kind)
    (name : Operand) : Option (String × Bool) :=
  match simple_visit seg.ident lookup kind name with
  | some res => some res
  | none =>
      if seg.ident = "Box" then
        match first_arg seg.arguments with
        | some ty =>
            match last_segment ty with
            | some seg2 =>
                if kind = .foldK then
                  wrapResult (fun val => "Box::new(" ++ val ++ ")")
                    (simple_visit seg2.ident lookup kind
                      (.owned ("*" ++ name.tokens)))
                else
                  simple_visit seg2.ident lookup kind name
            | none => none
        | none => none
      else none

/-- `vec_visit` (main.rs 453-521): level 3, `Vec` / `Delimited` sequences;
the element type is resolved through levels 1-2 (`box_visit`). -/
def vec_visit (seg : PathSegment) (lookup : Lookup) (kind : Kind)
    (name : Operand) : Option (String × Bool) :=
  match box_visit seg lookup kind name with
  | some res => some res
  | none =>
      if seg.ident = "Vec" ∨ seg.ident = "Delimited" then
        let is_vec := seg.ident = "Vec"
        match first_arg seg.arguments with
        | some ty =>
            match last_segment ty with
            | some seg2 =>
                let operand : Operand := match kind with
                  | .visitK | .visitMutK => .borrowed "it"
                  | .foldK => .owned "it"
                wrapResult (fun val =>
                    match kind with
                    | .visitK =>
                        if is_vec then
                          "for it in " ++ name.ref_tokens ++ " \x7b " ++
                            val ++ " \x7d"
                        else
                          "for el in " ++ name.ref_tokens ++
                            " \x7b let it = el.item(); " ++ val ++ " \x7d"
                    | .visitMutK =>
                        if is_vec then
                          "for it in " ++ name.ref_mut_tokens ++ " \x7b " ++
                            val ++ " \x7d"
                        else
                          "for mut el in " ++ name.ref_mut_tokens ++
                            " \x7b let it = el.item_mut(); " ++ val ++
                            " \x7d"
                    | .foldK =>
                        "FoldHelper::lift(" ++ name.owned_tokens ++
                          ", |it| \x7b " ++ val ++ " \x7d)")
                  (box_visit seg2 lookup kind operand)
            | none => none
        | none => none
      else none

/-- `option_visit` (main.rs 523-564): level 4, `Option`; the inner type is
resolved through levels 1-3 (`vec_visit`); `None` passes through. -/
def option_visit (seg : PathSegment) (lookup : Lookup) (kind : Kind)
    (name : Operand) : Option (String × Bool) :=
  match vec_visit seg lookup kind name with
  | some res => some res
  | none =>
      if seg.ident = "Option" then
        match first_arg seg.arguments with
        | some ty =>
            match last_segment ty with
            | some seg2 =>
                let it : Operand := match kind with
                  | .visitK | .visitMutK => .borrowed "it"
                  | .foldK => .owned "it"
                wrapResult (fun val =>
                    match kind with
                    | .visitK =>
                        "if let Some(ref it) = " ++ name.owned_tokens ++
                          " \x7b " ++ val ++ " \x7d"
                    | .visitMutK =>
                        "if let Some(ref mut it) = " ++ name.owned_tokens ++
                          " \x7b " ++ val ++ " \x7d"
                    | .foldK =>
                        "(" ++ name.owned_tokens ++ ").map(|it| \x7b " ++
                          val ++ " \x7d)")
                  (vec_visit seg2 lookup kind it)
            | none => none
        | none => none
      else none

/-- `visit` (main.rs 566-581): run the strategy chain on the field type's
last segment, wrap in `full!` when the resolved node is `#full`-marked;
otherwise emit the skip comment (read/mutate) or passthrough (fold). -/
def visit (ty : RsType) (lookup : Lookup) (kind : Kind) (name : Operand) :
    String :=
  match last_segment ty with
  | some seg =>
      match option_visit seg lookup kind name with
      | some (res, eos_full) =>
          if eos_full then "full!(" ++ res ++ ")" else res
      | none =>
          if kind = .foldK then name.owned_tokens
          else "// Skipped field " ++ name.display
  | none =>
      if kind = .foldK then name.owned_tokens
      else "// Skipped field " ++ name.display

/-! ## The code emitter (`codegen::generate`, main.rs 583-827) -/

/-- `codegen::State` (main.rs 287-296): the seven output buffers. -/
structure State where
  visit_trait : String := ""
  visit_impl : String := ""
  visit_mut_trait : String := ""
  visit_mut_impl : String := ""
  fold_trait : String := ""
  fold_impl : String := ""
  spanned_impls : String := ""

def emptyState : State := {}

/-- Push the same or different text onto the three impl buffers. -/
def pushAll3 (st : State) (a b c : String) : State :=
  { st with visit_impl := st.visit_impl ++ a,
            visit_mut_impl := st.visit_mut_impl ++ b,
            fold_impl := st.fold_impl ++ c }

/-- The derived span-aggregation fragment (main.rs 640-652). -/
def spanned_impl_text (fs un ty : String) : String :=
  fs ++ "\n" ++
  "impl Spanned for ::" ++ ty ++ " \x7b\n    " ++
  "fn span(&self) -> Option<::proc_macro::Span> \x7b\n        " ++
  "let mut visitor = SpanVisitor::default();\n        " ++
  "visitor.visit_" ++ un ++ "(self);\n        " ++
  "visitor.span\n    \x7d\n\x7d\n\n"

/-- The trait-method and free-function headers plus the conditional
span-aggregation fragment (main.rs 586-653). -/
def headersState (st : State) (fs un ty : String) : State :=
  let st := { st with visit_trait := st.visit_trait ++ fs ++ "\n" ++
    "fn visit_" ++ un ++ "(&mut self, i: &\x27ast " ++ ty ++ ") \x7b " ++
    "visit_" ++ un ++ "(self, i) \x7d\n" }
  let st := { st with visit_mut_trait := st.visit_mut_trait ++ fs ++ "\n" ++
    "fn visit_" ++ un ++ "_mut(&mut self, i: &mut " ++ ty ++ ") \x7b " ++
    "visit_" ++ un ++ "_mut(self, i) \x7d\n" }
  let st := { st with fold_trait := st.fold_trait ++ fs ++ "\n" ++
    "fn fold_" ++ un ++ "(&mut self, i: " ++ ty ++ ") -> " ++ ty ++
    " \x7b fold_" ++ un ++ "(self, i) \x7d\n" }
  let st := { st with visit_impl := st.visit_impl ++ fs ++ "\n" ++
    "pub fn visit_" ++ un ++ "<\x27ast, V: Visitor<\x27ast> + ?Sized>(" ++
    "_visitor: &mut V, _i: &\x27ast " ++ ty ++ ") \x7b\n" }
  let st := { st with visit_mut_impl := st.visit_mut_impl ++ fs ++ "\n" ++
    "pub fn visit_" ++ un ++ "_mut<V: VisitorMut + ?Sized>(" ++
    "_visitor: &mut V, _i: &mut " ++ ty ++ ") \x7b\n" }
  let st := { st with fold_impl := st.fold_impl ++ fs ++ "\n" ++
    "pub fn fold_" ++ un ++ "<V: Folder + ?Sized>(" ++
    "_visitor: &mut V, _i: " ++ ty ++ ") -> " ++ ty ++ " \x7b\n" }
  if un ≠ "span" then
    { st with spanned_impls := st.spanned_impls ++ spanned_impl_text fs un ty }
  else st

/-- Bind the positional payload of a tuple variant to synthetic names
(main.rs 675-696). -/
def bindTupleFields (st : State) (idx : Nat) :
    List Field → State × List (Field × String)
  | [] => (st, [])
  | el :: rest =>
      let nm := "_binding_" ++ toString idx
      let st := { st with
        visit_impl := st.visit_impl ++ "ref " ++ nm ++ ", ",
        visit_mut_impl := st.visit_mut_impl ++ "ref mut " ++ nm ++ ", ",
        fold_impl := st.fold_impl ++ nm ++ ", " }
      let res := bindTupleFields st (idx + 1) rest
      (res.1, (el, nm) :: res.2)

/-- Emit the per-field traversal code of one enum variant
(main.rs 727-750). -/
def emitVariantFields (lookup : Lookup) (st : State) :
    List (Field × String) → State
  | [] => st
  | (field, binding) :: rest =>
      let v1 := visit field.ty lookup .visitK (.borrowed binding)
      let v2 := visit field.ty lookup .visitMutK (.borrowed binding)
      let v3 := visit field.ty lookup .foldK (.owned binding)
      let st := { st with
        visit_impl := st.visit_impl ++ "            " ++ v1 ++ ";\n" }
      let st := { st with
        visit_mut_impl := st.visit_mut_impl ++ "            " ++ v2 ++ ";\n" }
      let st := { st with
        fold_impl := st.fold_impl ++ "                " ++ v3 ++ ",\n" }
      emitVariantFields lookup st rest

/-- Emit one enum variant (main.rs 666-756); a variant with named payload
fields is a fatal error. -/
def enumVariant (lookup : Lookup) (st : State) (variant : Variant) :
    Except String State :=
  match variant.data with
  | .structV _ => Except.error "Doesn\x27t support enum struct variants"
  | .tupleV tfields =>
      let binding := "        " ++ variant.ident ++ "("
      let st := pushAll3 st binding binding binding
      let res := bindTupleFields st 0 tfields
      let st := res.1
      let fields := res.2
      let st := pushAll3 st ") => \x7b\n" ") => \x7b\n" ") => \x7b\n"
      let st := if fields.isEmpty then
          { st with visit_impl := st.visit_impl ++ "            \x7b\x7d",
                    visit_mut_impl := st.visit_mut_impl ++ ") => \x7b\n",
                    fold_impl := st.fold_impl ++ ") => \x7b\n" }
        else st
      let st := { st with fold_impl := st.fold_impl ++ "            " ++
        variant.ident ++ " (\n" }
      let st := emitVariantFields lookup st fields
      let st := { st with fold_impl := st.fold_impl ++ "            )\n" }
      let st := pushAll3 st "        \x7d\n" "        \x7d\n" "        \x7d\n"
      Except.ok st
  | .unitV =>
      Except.ok { st with
        visit_impl := st.visit_impl ++ "        " ++ variant.ident ++
          " => \x7b \x7d\n",
        visit_mut_impl := st.visit_mut_impl ++ "        " ++ variant.ident ++
          " => \x7b \x7d\n",
        fold_impl := st.fold_impl ++ "        " ++ variant.ident ++
          " => \x7b " ++ variant.ident ++ " \x7d\n" }

/-- The variant loop of the enum branch (main.rs 666-756). -/
def enumVariants (lookup : Lookup) (st : State) :
    List Variant → Except String State
  | [] => Except.ok st
  | v :: rest =>
      match enumVariant lookup st v with
      | .error e => .error e
      | .ok st2 => enumVariants lookup st2 rest

/-- The `use` declaration and `match` headers of the enum branch
(main.rs 658-665). -/
def enumHeader (st : State) (ty : String) : State :=
  let use_decl := "    use ::" ++ ty ++ "::*;\n"
  let st := pushAll3 st use_decl use_decl use_decl
  pushAll3 st "    match *_i \x7b\n" "    match *_i \x7b\n"
    "    match _i \x7b\n"

/-- Close the enum `match` (main.rs 757-759). -/
def enumFooter (st : State) : State :=
  pushAll3 st "    \x7d\n" "    \x7d\n" "    \x7d\n"

/-- Named struct fields paired with their access tokens
(main.rs 763-774). -/
def structNamedFields (fields : List Field) : List (Field × String) :=
  fields.map (fun el => (el, "_i." ++ el.ident.getD ""))

/-- Positional struct fields paired with their access tokens
(main.rs 775-788). -/
def structTupleFields (fields : List Field) : List (Field × String) :=
  fields.enum.map (fun p => (p.2, "_i." ++ toString p.1))

/-- Emit the per-field traversal code of a struct node
(main.rs 795-813). -/
def emitStructFields (lookup : Lookup) (st : State) :
    List (Field × String) → State
  | [] => st
  | (field, ref_toks) :: rest =>
      let nm : Operand := .owned ref_toks
      let v1 := visit field.ty lookup .visitK nm
      let v2 := visit field.ty lookup .visitMutK nm
      let fold := visit field.ty lookup .foldK nm
      let st := { st with
        visit_impl := st.visit_impl ++ "    " ++ v1 ++ ";\n" }
      let st := { st with
        visit_mut_impl := st.visit_mut_impl ++ "    " ++ v2 ++ ";\n" }
      let st := match field.ident with
        | some name => { st with
            fold_impl := st.fold_impl ++ "        " ++ name ++ ": " ++
              fold ++ ",\n" }
        | none => { st with
            fold_impl := st.fold_impl ++ "        " ++ fold ++ ",\n" }
      emitStructFields lookup st rest

/-- The struct branch of `generate` (main.rs 761-820). -/
def structBody (lookup : Lookup) (st : State) (ty : String)
    (vd : VariantData) : State :=
  match vd with
  | .structV fields =>
      let st := { st with fold_impl := st.fold_impl ++ "    " ++ ty ++
        " \x7b\n" }
      let st := emitStructFields lookup st (structNamedFields fields)
      { st with fold_impl := st.fold_impl ++ "    \x7d\n" }
  | .tupleV fields =>
      let st := { st with fold_impl := st.fold_impl ++ "    " ++ ty ++
        " (\n" }
      let st := emitStructFields lookup st (structTupleFields fields)
      { st with fold_impl := st.fold_impl ++ "    )\n" }
  | .unitV =>
      { st with fold_impl := st.fold_impl ++ "    _i\n" }

/-- Close the three free-function bodies (main.rs 824-826). -/
def closeImpls (st : State) : State :=
  pushAll3 st "\x7d\n" "\x7d\n" "\x7d\n"

/-- `codegen::generate` (main.rs 583-827): emit the per-node fragments of
all four artifacts; fails on an enum variant with named payload fields. -/
def generate (state : State) (lookup : Lookup) (s : AstItem) :
    Except String State :=
  let un := under_name s.item.ident
  let ty := s.item.ident
  let st := headersState state s.features un ty
  match s.item.body with
  | .enumB variants =>
      let st := enumHeader st ty
      match enumVariants lookup st variants with
      | .error e => .error e
      | .ok st2 => .ok (closeImpls (enumFooter st2))
  | .structB vd => .ok (closeImpls (structBody lookup st ty vd))

/-! ## Extraction-side constants and the module walk (main.rs 33-120) -/

def SYN_CRATE_ROOT : String := "../src/lib.rs"
def FOLD_SRC : String := "../src/gen/fold.rs"
def VISIT_SRC : String := "../src/gen/visit.rs"
def VISIT_MUT_SRC : String := "../src/gen/visit_mut.rs"
def SPANNED_SRC : String := "../src/gen/spanned.rs"

/-- `IGNORED_MODS` (main.rs 40): sub-modules holding previously generated
output, never opened during extraction. -/
def IGNORED_MODS : List String := ["fold", "visit", "visit_mut"]

/-- `TERMINAL_TYPES` (main.rs 42): terminal node types inserted manually
after file extraction. -/
def TERMINAL_TYPES : List String := ["Ident", "Span"]

/-- What `load_file` does with one module item (main.rs 98-120). -/
inductive ModAction where
  | skipInline : ModAction
  | skipIgnored : ModAction
  | followFile (path : String) : ModAction
deriving DecidableEq

/-- The module-item decision of `load_file` (main.rs 98-120): inline
modules are not inspected; modules named in `IGNORED_MODS` are skipped;
every other module is followed to the same-directory `.rs` file. -/
def modAction (parent : String) (ident : String) (inlineContent : Bool) :
    ModAction :=
  if inlineContent then .skipInline
  else if ident ∈ IGNORED_MODS then .skipIgnored
  else .followFile (parent ++ "/" ++ ident ++ ".rs")

/-- The `#full` marker parser (main.rs 166-175): when the marker is
present it yields the `cfg` feature attribute and sets the
`ast_enum_of_structs` full flag. -/
def full_attr_parse (present : Bool) : String × Bool :=
  if present then ("#[cfg(feature = \"full\")]", true) else ("", false)

/-- The expansion of the emitted `full!` guard helper macro
(main.rs 864-874): a no-op passthrough when the `full` feature is
enabled, a statically-unreachable marker when it is disabled. -/
def full_expand (fullFeature : Bool) (e : String) : String :=
  if fullFeature then e else "unreachable!()"

/-! ## The main run (main.rs 830-1055) -/

/-- The terminal `AstItem` inserted for each `TERMINAL_TYPES` name
(main.rs 835-857): a unit-shaped record with no fields. -/
def terminalItem (tt : String) : AstItem :=
  { item := { ident := tt, body := .structB .unitV },
    features := "", eos_full := false }

/-- Insertion of the terminal types into the lookup table
(main.rs 835-857). -/
def insertTerminals (lookup : Lookup) : Lookup :=
  TERMINAL_TYPES.foldl (fun lk tt => btInsert tt (terminalItem tt) lk) lookup

/-- The emission loop (main.rs 859-862): `generate` once per lookup-table
entry, in table order. -/
def runGenerate (lookup : Lookup) : Except String State :=
  (lookup.map Prod.snd).foldlM (fun st s => generate st lookup s) emptyState

/-- The emitted `full!` helper text (main.rs 864-874). -/
def fullMacroText : String :=
  "\n#[cfg(feature = \"full\")]\nmacro_rules! full \x7b\n    " ++
  "($e:expr) => \x7b $e \x7d\n\x7d\n\n#[cfg(not(feature = \"full\"))]\n" ++
  "macro_rules! full \x7b\n    ($e:expr) => \x7b unreachable!() \x7d\n\x7d\n"

/-- The fold artifact (main.rs 876-940): banner, imports, the
shape-preserving `FoldHelper` lift, the guard helper, the `Folder` trait
and the free fold functions. -/
def foldFileContent (st : State) : String :=
  "// THIS FILE IS AUTOMATICALLY GENERATED; DO NOT EDIT\n\n" ++
  "//! A Folder represents an AST->AST fold; it accepts an AST piece,\n" ++
  "//! and returns a piece of the same type.\n\n" ++
  "#![cfg_attr(rustfmt, rustfmt_skip)]\n\n" ++
  "// Unreachable code is generated sometimes without the full feature.\n" ++
  "#![allow(unreachable_code)]\n" ++
  "#![cfg_attr(feature = \"cargo-clippy\", allow(needless_pass_by_value))]" ++
  "\n\nuse *;\nuse delimited::Delimited;\nuse proc_macro2::Span;\n\n" ++
  "trait FoldHelper \x7b\n    type Item;\n    " ++
  "fn lift<F>(self, f: F) -> Self where " ++
  "F: FnMut(Self::Item) -> Self::Item;\n\x7d\n\n" ++
  "impl<T> FoldHelper for Vec<T> \x7b\n    type Item = T;\n    " ++
  "fn lift<F>(self, f: F) -> Self where " ++
  "F: FnMut(Self::Item) -> Self::Item \x7b\n        " ++
  "self.into_iter().map(f).collect()\n    \x7d\n\x7d\n\n" ++
  "impl<T, U> FoldHelper for Delimited<T, U> \x7b\n    type Item = T;\n    " ++
  "fn lift<F>(self, mut f: F) -> Self where " ++
  "F: FnMut(Self::Item) -> Self::Item \x7b\n        " ++
  "self.into_iter().map(|elem| \x7b\n            " ++
  "let (t, u) = elem.into_tuple();\n            (f(t), u)\n        " ++
  "\x7d).collect::<Vec<(T, Option<U>)>>().into()\n    \x7d\n\x7d\n\n" ++
  fullMacroText ++
  "\n\n/// AST->AST fold.\n///\n" ++
  "/// Each method of the Folder trait is a hook to be potentially " ++
  "overridden. Each\n" ++
  "/// method\x27s default implementation recursively visits the " ++
  "substructure of the\n" ++
  "/// input via the `walk` functions, which perform an \"identity " ++
  "fold\", that\n" ++
  "/// is, they return the same structure that they are given (for " ++
  "example the\n" ++
  "/// `fold_file` method by default calls `fold::walk_file`).\n///\n" ++
  "/// If you want to ensure that your code handles every variant\n" ++
  "/// explicitly, you need to override each method.  (And you also need\n" ++
  "/// to monitor future changes to `Folder` in case a new method with a\n" ++
  "/// new default implementation gets introduced.)\n" ++
  "pub trait Folder \x7b\n" ++ st.fold_trait ++ "\n\x7d\n\n" ++
  st.fold_impl ++ "\n"

/-- The read-only visit artifact (main.rs 942-980). -/
def visitFileContent (st : State) : String :=
  "// THIS FILE IS AUTOMATICALLY GENERATED; DO NOT EDIT\n\n" ++
  "//! AST walker. Each overridden visit method has full control over " ++
  "what\n" ++
  "//! happens with its node, it can do its own traversal of the " ++
  "node\x27s children,\n" ++
  "//! call `visit::walk_*` to apply the default traversal algorithm, " ++
  "or prevent\n" ++
  "//! deeper traversal by doing nothing.\n\n" ++
  "#![cfg_attr(rustfmt, rustfmt_skip)]\n\n" ++
  "#![cfg_attr(feature = \"cargo-clippy\", allow(match_same_arms))]\n\n" ++
  "use *;\nuse proc_macro2::Span;\n\n" ++
  fullMacroText ++
  "\n\n/// Each method of the Visitor trait is a hook to be potentially\n" ++
  "/// overridden.  Each method\x27s default implementation recursively " ++
  "visits\n" ++
  "/// the substructure of the input via the corresponding `walk` " ++
  "method;\n" ++
  "/// e.g. the `visit_mod` method by default calls `visit::walk_mod`.\n" ++
  "///\n/// If you want to ensure that your code handles every variant\n" ++
  "/// explicitly, you need to override each method.  (And you also need\n" ++
  "/// to monitor future changes to `Visitor` in case a new method with " ++
  "a\n/// new default implementation gets introduced.)\n" ++
  "pub trait Visitor<\x27ast> \x7b\n" ++ st.visit_trait ++ "\n\x7d\n\n" ++
  st.visit_impl ++ "\n"

/-- The mutable visit artifact (main.rs 982-1020). -/
def visitMutFileContent (st : State) : String :=
  "// THIS FILE IS AUTOMATICALLY GENERATED; DO NOT EDIT\n\n" ++
  "//! AST walker. Each overridden visit method has full control over " ++
  "what\n" ++
  "//! happens with its node, it can do its own traversal of the " ++
  "node\x27s children,\n" ++
  "//! call `visit::walk_*` to apply the default traversal algorithm, " ++
  "or prevent\n" ++
  "//! deeper traversal by doing nothing.\n\n" ++
  "#![cfg_attr(rustfmt, rustfmt_skip)]\n\n" ++
  "#![cfg_attr(feature = \"cargo-clippy\", allow(match_same_arms))]\n\n" ++
  "use *;\nuse proc_macro2::Span;\n\n" ++
  fullMacroText ++
  "\n\n/// Each method of the VisitorMut trait is a hook to be " ++
  "potentially\n" ++
  "/// overridden.  Each method\x27s default implementation recursively " ++
  "visits\n" ++
  "/// the substructure of the input via the corresponding `walk` " ++
  "method;\n" ++
  "/// e.g. the `visit_mod` method by default calls `visit::walk_mod`.\n" ++
  "///\n/// If you want to ensure that your code handles every variant\n" ++
  "/// explicitly, you need to override each method.  (And you also need\n" ++
  "/// to monitor future changes to `VisitorMut` in case a new method " ++
  "with a\n/// new default implementation gets introduced.)\n" ++
  "pub trait VisitorMut \x7b\n" ++ st.visit_mut_trait ++ "\n\x7d\n\n" ++
  st.visit_mut_impl ++ "\n"

/-- The span-aggregation artifact (main.rs 1022-1054): the `Spanned`
trait, the `SpanVisitor` seeded with an absent aggregate, and one impl
per node. -/
def spannedFileContent (st : State) : String :=
  "// THIS FILE IS AUTOMATICALLY GENERATED; DO NOT EDIT\n\n" ++
  "#![cfg_attr(rustfmt, rustfmt_skip)]\n" ++
  "#![cfg_attr(feature = \"cargo-clippy\", allow(match_same_arms))]\n\n" ++
  "use visit::Visitor;\n\n" ++
  "pub trait Spanned \x7b\n    " ++
  "/// Returns the `proc_macro::Span` of this item if it can be " ++
  "retrieved. When\n    " ++
  "/// using the `Span` for error reporting, it is safe to `unwrap()` " ++
  "it.\n    ///\n    " ++
  "/// This method is only available when the `unstable` feature is " ++
  "enabled.\n    " ++
  "fn span(&self) -> Option<::proc_macro::Span>;\n\x7d\n\n" ++
  "#[derive(Default)]\nstruct SpanVisitor \x7b\n    " ++
  "span: Option<::proc_macro::Span>,\n\x7d\n\n" ++
  "impl<\x27a> Visitor<\x27a> for SpanVisitor \x7b\n    " ++
  "fn visit_span(&mut self, sp: &\x27a ::proc_macro2::Span) \x7b\n" ++
  "        self.span = self.span.map_or(Some(sp.into_inner()), " ++
  "|s| s.join(sp.into_inner()));\n    \x7d\n\x7d\n\n" ++
  st.spanned_impls ++ "\n"

/-- The whole generation run after extraction (main.rs 830-1055): seed
the terminal types, run `generate` over the table in name order, then
assemble the four artifacts. A `generate` failure aborts before any
artifact is produced, because all per-node generation (859-862) precedes
the first `File::create` (876). -/
def mainArtifacts (extracted : Lookup) : Except String (List (String × String)) :=
  let lookup := insertTerminals extracted
  (runGenerate lookup).map fun st =>
    [(FOLD_SRC, foldFileContent st),
     (VISIT_SRC, visitFileContent st),
     (VISIT_MUT_SRC, visitMutFileContent st),
     (SPANNED_SRC, spannedFileContent st)]

/-- The files an aborted or completed run leaves behind: none on a fatal
generation error, all four on success. -/
def writtenFiles (extracted : Lookup) : List (String × String) :=
  match mainArtifacts extracted with
  | .ok fs => fs
  | .error _ => []

/-- Folding an extraction-ordered sequence of node declarations into the
`BTreeMap` lookup (main.rs 145-148): later bindings overwrite earlier
ones with the same name. -/
def buildLookup (entries : List (String × AstItem)) : Lookup :=
  entries.foldl (fun m e => btInsert e.1 e.2 m) []

/-! ## Runtime semantics of the generated fold (the emitted fold.rs)

The generated `fold_*` functions with no method overridden rebuild each
value: struct and tuple-variant cases reconstruct the constructor with
every field folded (main.rs 724-751, 761-819), unit variants map to
themselves (main.rs 704-716), `Box` fields re-wrap the folded owned inner
value with `Box::new` (main.rs 433-443), sequences go through
`FoldHelper::lift` (main.rs 510-514 and the impls at 895-915), `Option`
fields go through `.map` (main.rs 553-557), and unresolved fields pass
through (main.rs 577-578). -/

/-- An instance of any schema node shape, as traversed by the generated
fold: a record (named or positional fields alike), an enum variant with
its payload (a unit variant has an empty payload), and the container and
unresolved field shapes. A `delimV` element carries its separator
metadata. -/
inductive Value where
  | node (name : String) (fields : List Value) : Value
  | variantNode (enumName variantName : String) (payload : List Value) : Value
  | boxed (inner : Value) : Value
  | vecV (elems : List Value) : Value
  | delimV (elems : List (Value × Option String)) : Value
  | optV (inner : Option Value) : Value
  | unresolvedV (tok : String) : Value

/-- `impl<T> FoldHelper for Vec<T>` (main.rs 900-905):
`self.into_iter().map(f).collect()`. -/
def foldHelperLiftVec {α : Type} (f : α → α) (v : List α) : List α :=
  v.map f

/-- `impl<T, U> FoldHelper for Delimited<T, U>` (main.rs 907-915): map
each element through `f`, leaving the separator of each pair untouched,
and rebuild the same container kind. -/
def foldHelperLiftDelimited {α β : Type} (f : α → α)
    (v : List (α × Option β)) : List (α × Option β) :=
  v.map (fun elem => (f elem.1, elem.2))

mutual

/-- The identity fold: the behavior of the generated `fold_*` functions
when no `Folder` method is overridden. -/
def foldValue : Value → Value
  | .node n fs => .node n (foldValueList fs)
  | .variantNode e v ps => .variantNode e v (foldValueList ps)
  | .boxed inner => .boxed (foldValue inner)
  | .vecV es => .vecV (foldValueList es)
  | .delimV es => .delimV (foldValueDelim es)
  | .optV o => .optV (foldValueOpt o)
  | .unresolvedV tok => .unresolvedV tok

/-- Elementwise fold over a plain sequence, as `FoldHelper::lift` for
`Vec` performs it. -/
def foldValueList : List Value → List Value
  | [] => []
  | v :: vs => foldValue v :: foldValueList vs

/-- Elementwise fold over a delimited list, as `FoldHelper::lift` for
`Delimited` performs it: the separator component is untouched. -/
def foldValueDelim : List (Value × Option String) → List (Value × Option String)
  | [] => []
  | (t, u) :: rest => (foldValue t, u) :: foldValueDelim rest

/-- Fold under `Option` via `.map` (main.rs 553-557): `None` maps to
`None`. -/
def foldValueOpt : Option Value → Option Value
  | none => none
  | some v => some (foldValue v)

end

/-! ## Span aggregation semantics (spanned.rs `SpanVisitor`,
main.rs 1040-1049) -/

/-- One `visit_span` step (main.rs 1046-1048):
`self.span = self.span.map_or(Some(sp), |s| s.join(sp))`. The first
position initializes the aggregate; each subsequent position is combined
with the running aggregate via the join operation. -/
def span_step {α : Type} (join : α → α → Option α) (acc : Option α)
    (sp : α) : Option α :=
  match acc with
  | none => some sp
  | some s => join s sp

/-- Running the span visitor over the terminal position markers a node
contains, in visit order, seeded with the empty aggregate
(`SpanVisitor::default()`, main.rs 1040-1043). -/
def span_collect {α : Type} (join : α → α → Option α) (sps : List α) :
    Option α :=
  sps.foldl (span_step join) none

/-! ## The example entry point (examples/unstable/src/lib.rs) -/

/-- A parsed grouped-value expression (`syn::ExprTuple`) as the example
uses it: its logical elements and its aggregated source span. The
elements and the span come from the parsing collaborator, which is
outside this crate's design. -/
structure ExprTuple where
  args : List String
  span : Nat

/-- Modelled from the spec: the richer diagnostic produced by the
external position-tracking front end (`proc_macro::Diagnostic`) — an
error with a primary message anchored at a position, plus an optional
secondary note anchored at a second position. -/
structure Diagnostic where
  span : Nat
  message : String
  note_span : Option Nat
  note : Option String
deriving DecidableEq

/-- `eval` (lib.rs 55-73) after the two tuples and the equality marker
have been parsed: compare arities; on mismatch, fail with the primary
error anchored at the second expression and a note anchored at the first
expression; otherwise emit the acknowledgement output. -/
def eval (a b : ExprTuple) : Except Diagnostic String :=
  let a_len := a.args.length
  let b_len := b.args.length
  if a_len ≠ b_len then
    Except.error
      { span := b.span,
        message := "expected " ++ toString a_len ++ " element(s), got " ++
          toString b_len,
        note_span := some a.span,
        note := some "because of this" }
  else
    Except.ok "println!(\"All good!\")"

/-- `demo` (lib.rs 75-84): on success return the acknowledgement tokens,
on failure emit the diagnostic and return empty output. -/
def demo (r : Except Diagnostic String) : String × Option Diagnostic :=
  match r with
  | .ok val => (val, none)
  | .error d => ("", some d)

/-! ## Small executable helpers used by the theorems -/

/-- Whether `pat` occurs as a prefix of `s` (character lists). -/
def isPrefCL : List Char → List Char → Bool
  | [], _ => true
  | _ :: _, [] => false
  | p :: ps, c :: cs => p = c && isPrefCL ps cs

/-- Whether `pat` occurs as a substring of `s` (character lists). -/
def occursCL (pat : List Char) : List Char → Bool
  | [] => isPrefCL pat []
  | c :: cs => isPrefCL pat (c :: cs) || occursCL pat cs

/-- Whether `pat` occurs as a substring of `s`. -/
def containsSub (s pat : String) : Bool :=
  occursCL pat.data s.data

/-- Project the success state out of a `generate` result. -/
def stateOf (r : Except String State) : State :=
  match r with
  | .ok st => st
  | .error _ => emptyState

/-- Whether an `Except` result is a success. -/
def exceptIsOk {ε α : Type} : Except ε α → Bool
  | .ok _ => true
  | .error _ => false

/-- Whether a variant has named payload fields. -/
def isStructVariantData : VariantData → Bool
  | .structV _ => true
  | _ => false

/-- Whether a node is a tagged union containing a variant with named
payload fields — the unsupported shape of main.rs 668. -/
def hasEnumStructVariant (s : AstItem) : Bool :=
  match s.item.body with
  | .enumB vs => vs.any (fun v => isStructVariantData v.data)
  | _ => false

/-- Project the diagnostic out of a failed example run. -/
def diagOf (r : Except Diagnostic String) : Diagnostic :=
  match r with
  | .error d => d
  | .ok _ => { span := 0, message := "", note_span := none, note := none }

/-! ## Concrete inputs for the witnesses and counterexamples -/

/-- A one-node lookup table. -/
def nodeLookup : Lookup := [("Node", terminalItem "Node")]

/-- A node declared with the `#full` marker (`extended_only`). -/
def eosItem : AstItem :=
  { item := { ident := "Expr", body := .structB .unitV },
    features := (full_attr_parse true).1,
    eos_full := (full_attr_parse true).2 }

def eosLookup : Lookup := [("Expr", eosItem)]

/-- A record node with one named field whose type is the
`extended_only` node. -/
def refItem : AstItem :=
  { item :=
      { ident := "Wrapper",
        body := .structB (.structV
          [{ ident := some "e",
             ty := RsType.pathT false [PathSegment.mk "Expr" .noneA] }]) },
    features := "", eos_full := false }

/-- A tagged union containing a variant with named payload fields: the
unsupported shape. -/
def badEnumItem : AstItem :=
  { item :=
      { ident := "AEnum",
        body := .enumB
          [{ ident := "V",
             data := .structV
               [{ ident := some "x", ty := RsType.otherT }] }] },
    features := "", eos_full := false }

def badLookup : Lookup := [("AEnum", badEnumItem)]

def exprTupleA3 : ExprTuple := { args := ["x", "y", "z"], span := 10 }
def exprTupleB2 : ExprTuple := { args := ["u", "v"], span := 20 }
def exprTupleA2 : ExprTuple := { args := ["x", "y"], span := 10 }
def exprTupleB3 : ExprTuple := { args := ["u", "v", "w"], span := 20 }

/-! ## Derived resolution predicates

Name-only characterizations of which type expressions each classifier
level accepts; the bridge lemmas below prove that the string-emitting
classifier functions succeed exactly on these, for every traversal kind
and operand. -/

/-- Level 1 acceptance: the name is in the lookup table. -/
def directResolves (lookup : Lookup) (n : String) : Bool :=
  (lookup_get lookup n).isSome

/-- Levels 1-2 acceptance. -/
def boxResolves (lookup : Lookup) (seg : PathSegment) : Bool :=
  directResolves lookup seg.ident ||
    (seg.ident = "Box" &&
      match first_arg seg.arguments with
      | some t =>
          match last_segment t with
          | some s => directResolves lookup s.ident
          | none => false
      | none => false)

/-- Levels 1-3 acceptance. -/
def vecResolves (lookup : Lookup) (seg : PathSegment) : Bool :=
  boxResolves lookup seg ||
    ((seg.ident = "Vec" || seg.ident = "Delimited") &&
      match first_arg seg.arguments with
      | some t =>
          match last_segment t with
          | some s => boxResolves lookup s
          | none => false
      | none => false)

/-- Levels 1-4 acceptance. -/
def optionResolves (lookup : Lookup) (seg : PathSegment) : Bool :=
  vecResolves lookup seg ||
    (seg.ident = "Option" &&
      match first_arg seg.arguments with
      | some t =>
          match last_segment t with
          | some s => vecResolves lookup s
          | none => false
      | none => false)

/-- Whether a whole field type expression resolves to any strategy. -/
def tyResolves (lookup : Lookup) (ty : RsType) : Bool :=
  match last_segment ty with
  | some seg => optionResolves lookup seg
  | none => false

/-! ## Where classification aborts

`first_arg` (main.rs 372-386) panics — "Expected at least 1 type
argument here" — when a container-named head has missing,
non-angle-bracketed, or non-type first arguments; the collapsed
`first_arg` above returns `none` there. These predicates record exactly
the evaluations of the classifier chain that reach that panic, following
its call sites (main.rs 431, 466, 535): on such a field type the program
aborts instead of emitting any traversal code. -/

/-- `box_visit` (main.rs 419-451) reaches the panic: no direct hit, the
segment is named `Box`, and its first type argument is malformed. -/
def boxPanics (lookup : Lookup) (seg : PathSegment) : Bool :=
  !directResolves lookup seg.ident &&
    seg.ident = "Box" && (first_arg seg.arguments).isNone

/-- `vec_visit` (main.rs 453-521) reaches the panic: either its
`box_visit` call does, or levels 1-2 fail, the segment is named `Vec` or
`Delimited`, and its first type argument is malformed or the element's
own `box_visit` panics. -/
def vecPanics (lookup : Lookup) (seg : PathSegment) : Bool :=
  boxPanics lookup seg ||
    (!boxResolves lookup seg &&
      (seg.ident = "Vec" || seg.ident = "Delimited") &&
      ((first_arg seg.arguments).isNone ||
        match first_arg seg.arguments with
        | some t =>
            match last_segment t with
            | some s2 => boxPanics lookup s2
            | none => false
        | none => false))

/-- `option_visit` (main.rs 523-564) reaches the panic: either its
`vec_visit` call does, or levels 1-3 fail, the segment is named
`Option`, and its first type argument is malformed or the inner type's
own `vec_visit` panics. -/
def optionPanics (lookup : Lookup) (seg : PathSegment) : Bool :=
  vecPanics lookup seg ||
    (!vecResolves lookup seg && seg.ident = "Option" &&
      ((first_arg seg.arguments).isNone ||
        match first_arg seg.arguments with
        | some t =>
            match last_segment t with
            | some s2 => vecPanics lookup s2
            | none => false
        | none => false))

/-- Classifying this field type makes the program abort at the
missing-type-argument panic. -/
def tyPanics (lookup : Lookup) (ty : RsType) : Bool :=
  match last_segment ty with
  | some seg => optionPanics lookup seg
  | none => false

/-- The fields of a struct-shaped node's `VariantData`. -/
def vdFields : VariantData → List Field
  | .structV fields => fields
  | .tupleV fields => fields
  | .unitV => []

/-- A field typed bare `Box` (a type path with no generic arguments):
no strategy matches it, and `first_arg` panics on it. -/
def bareBoxTy : RsType :=
  RsType.pathT false [PathSegment.mk "Box" PathArguments.noneA]

/-- A single-segment path naming a node. -/
def segTy (n : String) : RsType := .pathT false [.mk n .noneA]

/-- A wrapper segment `W<t>`. -/
def wrapSeg (w : String) (t : RsType) : PathSegment :=
  .mk w (.angleBracketed [.typeArg t])

/-- A single-segment path `W<t>`. -/
def wrapTy (w : String) (t : RsType) : RsType :=
  .pathT false [wrapSeg w t]

/-! ## Bridge lemmas: the classifier succeeds exactly on the resolution
predicates, for every traversal kind and operand -/

theorem wrapResult_isSome (build : String → String)
    (o : Option (String × Bool)) :
    (wrapResult build o).isSome = o.isSome := by
  cases o with
  | none => rfl
  | some p => cases p; rfl

theorem simple_visit_isSome (n : String) (lookup : Lookup) (kind : Kind)
    (name : Operand) :
    (simple_visit n lookup kind name).isSome = directResolves lookup n := by
  cases h : lookup_get lookup n <;>
    simp [simple_visit, directResolves, h]

theorem box_visit_isSome (seg : PathSegment) (lookup : Lookup) (kind : Kind)
    (name : Operand) :
    (box_visit seg lookup kind name).isSome = boxResolves lookup seg := by
  unfold box_visit boxResolves
  cases hg : lookup_get lookup seg.ident with
  | some it => simp [simple_visit, directResolves, hg]
  | none =>
      by_cases hb : seg.ident = "Box"
      case neg => simp [simple_visit, directResolves, hg, hb]
      case pos =>
        rw [hb] at hg
        cases hf : first_arg seg.arguments with
        | none => simp [simple_visit, directResolves, hg, hb, hf]
        | some t =>
            cases hl : last_segment t with
            | none => simp [simple_visit, directResolves, hg, hb, hf, hl]
            | some s2 =>
                cases kind <;>
                  simp [simple_visit_isSome, wrapResult_isSome,
                    directResolves, hg, hb, hf, hl, simple_visit,
                    directResolves]
                <;> cases hg2 : lookup_get lookup s2.ident <;> simp [hg2]

theorem vec_visit_isSome (seg : PathSegment) (lookup : Lookup) (kind : Kind)
    (name : Operand) :
    (vec_visit seg lookup kind name).isSome = vecResolves lookup seg := by
  unfold vec_visit vecResolves
  cases hbv : box_visit seg lookup kind name with
  | some res =>
      have h := box_visit_isSome seg lookup kind name
      rw [hbv] at h
      simp [hbv, ← h]
  | none =>
      have h := box_visit_isSome seg lookup kind name
      rw [hbv] at h
      by_cases hv : seg.ident = "Vec" ∨ seg.ident = "Delimited"
      case neg =>
        push_neg at hv
        simp [hbv, ← h, hv.1, hv.2]
      case pos =>
        have hv' : (seg.ident = "Vec" || seg.ident = "Delimited") = true := by
          rcases hv with h1 | h1 <;> simp [h1]
        cases hf : first_arg seg.arguments with
        | none => simp [hbv, ← h, hv, hv', hf]
        | some t =>
            cases hl : last_segment t with
            | none => simp [hbv, ← h, hv, hv', hf, hl]
            | some s2 =>
                simp [hbv, ← h, hv, hv', hf, hl, wrapResult_isSome,
                  box_visit_isSome]

theorem option_visit_isSome (seg : PathSegment) (lookup : Lookup)
    (kind : Kind) (name : Operand) :
    (option_visit seg lookup kind name).isSome = optionResolves lookup seg := by
  unfold option_visit optionResolves
  cases hvv : vec_visit seg lookup kind name with
  | some res =>
      have h := vec_visit_isSome seg lookup kind name
      rw [hvv] at h
      simp [hvv, ← h]
  | none =>
      have h := vec_visit_isSome seg lookup kind name
      rw [hvv] at h
      by_cases ho : seg.ident = "Option"
      case neg => simp [hvv, ← h, ho]
      case pos =>
        cases hf : first_arg seg.arguments with
        | none => simp [hvv, ← h, ho, hf]
        | some t =>
            cases hl : last_segment t with
            | none => simp [hvv, ← h, ho, hf, hl]
            | some s2 =>
                simp [hvv, ← h, ho, hf, hl, wrapResult_isSome,
                  vec_visit_isSome]

/-- When a type fails every strategy, `option_visit` returns `none`
whatever the kind and operand. -/
theorem option_visit_eq_none (seg : PathSegment) (lookup : Lookup)
    (kind : Kind) (name : Operand)
    (h : optionResolves lookup seg = false) :
    option_visit seg lookup kind name = none := by
  have h2 := option_visit_isSome seg lookup kind name
  rw [h] at h2
  exact Option.not_isSome_iff_eq_none.mp (by simp [h2])

/-- A direct lookup-table hit wins over every container strategy,
whatever the segment's name and arguments. -/
theorem option_visit_direct (seg : PathSegment) (lookup : Lookup)
    (kind : Kind) (name : Operand) (it : AstItem)
    (h : lookup_get lookup seg.ident = some it) :
    option_visit seg lookup kind name =
      simple_visit seg.ident lookup kind name := by
  simp [option_visit, vec_visit, box_visit, simple_visit, h]

/-! ## Identity of the generated fold -/

/-- The elementwise fold over a sequence is exactly `FoldHelper::lift`
for `Vec`. -/
theorem foldValueList_eq_lift (l : List Value) :
    foldValueList l = foldHelperLiftVec foldValue l := by
  induction l with
  | nil => rfl
  | cons v vs ih => simp [foldValueList, foldHelperLiftVec, ih]

/-- The elementwise fold over a delimited list is exactly
`FoldHelper::lift` for `Delimited`. -/
theorem foldValueDelim_eq_lift (l : List (Value × Option String)) :
    foldValueDelim l = foldHelperLiftDelimited foldValue l := by
  induction l with
  | nil => rfl
  | cons p rest ih =>
      cases p
      simp [foldValueDelim, foldHelperLiftDelimited, ih]

mutual

theorem foldValue_id : (v : Value) → foldValue v = v
  | .node n fs => by rw [foldValue, foldValueList_id]
  | .variantNode e v ps => by rw [foldValue, foldValueList_id]
  | .boxed inner => by rw [foldValue, foldValue_id]
  | .vecV es => by rw [foldValue, foldValueList_id]
  | .delimV es => by rw [foldValue, foldValueDelim_id]
  | .optV o => by rw [foldValue, foldValueOpt_id]
  | .unresolvedV tok => by rw [foldValue]

theorem foldValueList_id : (l : List Value) → foldValueList l = l
  | [] => by rw [foldValueList]
  | v :: vs => by rw [foldValueList, foldValue_id, foldValueList_id]

theorem foldValueDelim_id :
    (l : List (Value × Option String)) → foldValueDelim l = l
  | [] => by rw [foldValueDelim]
  | (t, u) :: rest => by rw [foldValueDelim, foldValue_id, foldValueDelim_id]

theorem foldValueOpt_id : (o : Option Value) → foldValueOpt o = o
  | none => by rw [foldValueOpt]
  | some v => by rw [foldValueOpt, foldValue_id]

end

/-! ## Behavior of `generate`: the span-aggregation buffer, totality, and
the fatal struct-variant case -/

theorem pushAll3_spanned (st : State) (a b c : String) :
    (pushAll3 st a b c).spanned_impls = st.spanned_impls := rfl

theorem bindTupleFields_spanned (l : List Field) :
    ∀ (st : State) (idx : Nat),
      (bindTupleFields st idx l).1.spanned_impls = st.spanned_impls := by
  induction l with
  | nil => intro st idx; rfl
  | cons el rest ih =>
      intro st idx
      simp only [bindTupleFields]
      rw [ih]

theorem emitVariantFields_spanned (lookup : Lookup) (l : List (Field × String)) :
    ∀ st : State,
      (emitVariantFields lookup st l).spanned_impls = st.spanned_impls := by
  induction l with
  | nil => intro st; rfl
  | cons p rest ih =>
      intro st
      cases p
      simp only [emitVariantFields]
      rw [ih]

theorem enumVariant_spanned (lookup : Lookup) (st st2 : State) (v : Variant)
    (h : enumVariant lookup st v = .ok st2) :
    st2.spanned_impls = st.spanned_impls := by
  cases hv : v.data with
  | structV fs => rw [enumVariant, hv] at h; exact absurd h (by simp)
  | tupleV fs =>
      rw [enumVariant, hv] at h
      simp only [Except.ok.injEq] at h
      subst h
      simp [pushAll3, emitVariantFields_spanned, bindTupleFields_spanned]
      split <;> simp [bindTupleFields_spanned]
  | unitV =>
      rw [enumVariant, hv] at h
      simp only [Except.ok.injEq] at h
      subst h
      rfl

theorem enumVariants_spanned (lookup : Lookup) (l : List Variant) :
    ∀ (st st2 : State), enumVariants lookup st l = .ok st2 →
      st2.spanned_impls = st.spanned_impls := by
  induction l with
  | nil =>
      intro st st2 h
      rw [enumVariants] at h
      simp only [Except.ok.injEq] at h
      subst h; rfl
  | cons v rest ih =>
      intro st st2 h
      rw [enumVariants] at h
      cases hv : enumVariant lookup st v with
      | error e => rw [hv] at h; exact absurd h (by simp)
      | ok stm =>
          rw [hv] at h
          rw [ih stm st2 h, enumVariant_spanned lookup st stm v hv]

theorem emitStructFields_spanned (lookup : Lookup) (l : List (Field × String)) :
    ∀ st : State,
      (emitStructFields lookup st l).spanned_impls = st.spanned_impls := by
  induction l with
  | nil => intro st; rfl
  | cons p rest ih =>
      intro st
      obtain ⟨field, ref_toks⟩ := p
      simp only [emitStructFields]
      rw [ih]
      cases field.ident <;> rfl

theorem structBody_spanned (lookup : Lookup) (st : State) (ty : String)
    (vd : VariantData) :
    (structBody lookup st ty vd).spanned_impls = st.spanned_impls := by
  cases vd <;> simp [structBody, emitStructFields_spanned]

theorem headersState_spanned (st : State) (fs un ty : String) :
    (headersState st fs un ty).spanned_impls =
      st.spanned_impls ++
        (if un ≠ "span" then spanned_impl_text fs un ty else "") := by
  unfold headersState
  split <;> simp

/-- On success, `generate` appends the span-aggregation impl for the node
exactly when the node is not the position-marker terminal (`under_name`
equal to `"span"`), and nothing else touches that buffer. -/
theorem generate_spanned (st : State) (lookup : Lookup) (s : AstItem)
    (st2 : State) (h : generate st lookup s = .ok st2) :
    st2.spanned_impls =
      st.spanned_impls ++
        (if under_name s.item.ident ≠ "span" then
          spanned_impl_text s.features (under_name s.item.ident) s.item.ident
        else "") := by
  unfold generate at h
  cases hb : s.item.body with
  | enumB variants =>
      rw [hb] at h
      simp only [] at h
      cases hv : enumVariants lookup
          (enumHeader (headersState st s.features (under_name s.item.ident)
            s.item.ident) s.item.ident) variants with
      | error e => rw [hv] at h; exact absurd h (by simp)
      | ok stm =>
          rw [hv] at h
          simp only [Except.ok.injEq] at h
          subst h
          have h1 := enumVariants_spanned lookup variants _ _ hv
          simp only [closeImpls, pushAll3_spanned, enumFooter]
          rw [h1]
          simp only [enumHeader, pushAll3_spanned]
          exact headersState_spanned st s.features _ _
  | structB vd =>
      rw [hb] at h
      simp only [] at h
      simp only [Except.ok.injEq] at h
      subst h
      simp only [closeImpls, pushAll3_spanned]
      rw [structBody_spanned]
      exact headersState_spanned st s.features _ _

theorem enumVariants_ok (lookup : Lookup) (l : List Variant)
    (h : ∀ v ∈ l, isStructVariantData v.data = false) :
    ∀ st : State, ∃ st2, enumVariants lookup st l = .ok st2 := by
  induction l with
  | nil => intro st; exact ⟨st, rfl⟩
  | cons v rest ih =>
      intro st
      have hv := h v (by simp)
      cases hd : v.data with
      | structV fs => rw [hd] at hv; exact absurd hv (by simp [isStructVariantData])
      | tupleV fs =>
          obtain ⟨st2, h2⟩ := ih (fun w hw => h w (by simp [hw])) _
          exact ⟨st2, by rw [enumVariants, enumVariant, hd]; exact h2⟩
      | unitV =>
          obtain ⟨st2, h2⟩ := ih (fun w hw => h w (by simp [hw])) _
          exact ⟨st2, by rw [enumVariants, enumVariant, hd]; exact h2⟩

theorem enumVariants_err (lookup : Lookup) (l : List Variant)
    (h : ∃ v ∈ l, isStructVariantData v.data = true) :
    ∀ st : State, enumVariants lookup st l =
      .error "Doesn\x27t support enum struct variants" := by
  induction l with
  | nil => simp at h
  | cons v rest ih =>
      intro st
      cases hd : v.data with
      | structV fs => rw [enumVariants, enumVariant, hd]
      | tupleV fs =>
          have hr : ∃ w ∈ rest, isStructVariantData w.data = true := by
            obtain ⟨w, hw, hwd⟩ := h
            rcases List.mem_cons.mp hw with rfl | hw2
            · rw [hd] at hwd; simp [isStructVariantData] at hwd
            · exact ⟨w, hw2, hwd⟩
          rw [enumVariants, enumVariant, hd]
          exact ih hr _
      | unitV =>
          have hr : ∃ w ∈ rest, isStructVariantData w.data = true := by
            obtain ⟨w, hw, hwd⟩ := h
            rcases List.mem_cons.mp hw with rfl | hw2
            · rw [hd] at hwd; simp [isStructVariantData] at hwd
            · exact ⟨w, hw2, hwd⟩
          rw [enumVariants, enumVariant, hd]
          exact ih hr _

/-- `generate` never fails on a node without a struct variant. -/
theorem generate_ok (st : State) (lookup : Lookup) (s : AstItem)
    (h : hasEnumStructVariant s = false) :
    ∃ st2, generate st lookup s = .ok st2 := by
  unfold generate
  cases hb : s.item.body with
  | structB vd => exact ⟨_, rfl⟩
  | enumB variants =>
      rw [hasEnumStructVariant, hb] at h
      simp only [List.any_eq_true, not_exists, Bool.not_eq_true] at h
      have h' : ∀ v ∈ variants, isStructVariantData v.data = false := by
        intro v hv
        by_cases hx : isStructVariantData v.data = true
        · exfalso
          rw [List.any_eq_false] at h
          exact absurd hx (by simp [h v hv])
        · simpa using hx
      obtain ⟨st2, h2⟩ := enumVariants_ok lookup variants h'
        (enumHeader (headersState st s.features (under_name s.item.ident)
          s.item.ident) s.item.ident)
      refine ⟨closeImpls (enumFooter st2), ?_⟩
      simp only []
      rw [h2]

/-- `generate` fails, with the fixed message, on every node containing an
enum struct variant. -/
theorem generate_err (st : State) (lookup : Lookup) (s : AstItem)
    (h : hasEnumStructVariant s = true) :
    generate st lookup s =
      .error "Doesn\x27t support enum struct variants" := by
  unfold generate
  cases hb : s.item.body with
  | structB vd => rw [hasEnumStructVariant, hb] at h; simp at h
  | enumB variants =>
      rw [hasEnumStructVariant, hb] at h
      simp only [List.any_eq_true] at h
      simp only []
      rw [enumVariants_err lookup variants h
        (enumHeader (headersState st s.features (under_name s.item.ident)
          s.item.ident) s.item.ident)]

/-- The emission loop fails, before any artifact is assembled, as soon as
any listed node has an enum struct variant. -/
theorem foldGen_err (lookup : Lookup) (items : List AstItem)
    (h : ∃ s ∈ items, hasEnumStructVariant s = true) :
    ∀ st : State,
      items.foldlM (fun st s => generate st lookup s) st =
        .error "Doesn\x27t support enum struct variants" := by
  induction items with
  | nil => simp at h
  | cons s rest ih =>
      intro st
      rw [List.foldlM_cons]
      by_cases hs : hasEnumStructVariant s = true
      · rw [generate_err st lookup s hs]
        rfl
      · obtain ⟨w, hw, hwd⟩ := h
        have hr : ∃ w ∈ rest, hasEnumStructVariant w = true := by
          rcases List.mem_cons.mp hw with rfl | hw2
          · exact absurd hwd hs
          · exact ⟨w, hw2, hwd⟩
        obtain ⟨st2, h2⟩ := generate_ok st lookup s (by simpa using hs)
        rw [h2]
        simpa using ih hr st2

/-! ## Determinism of the lookup table: insertion order does not matter,
iteration order is the total order on names -/

/-- Two strings with the same character data are equal. -/
theorem string_data_inj {a b : String} (h : a.data = b.data) : a = b := by
  cases a
  cases b
  exact congrArg String.mk h

theorem string_ne_of_data_lt {a b : String} (h : a.data < b.data) :
    a ≠ b :=
  fun e => absurd (e ▸ h) (lt_irrefl _)

theorem btInsert_comm (k1 k2 : String) (v1 v2 : AstItem) (hne : k1 ≠ k2) :
    ∀ m : Lookup, btInsert k1 v1 (btInsert k2 v2 m) =
      btInsert k2 v2 (btInsert k1 v1 m) := by
  intro m
  induction m with
  | nil =>
      rcases lt_trichotomy k1.data k2.data with h | h | h
      · simp [btInsert, h, lt_asymm h, string_ne_of_data_lt h,
          Ne.symm (string_ne_of_data_lt h)]
      · exact absurd (string_data_inj h) hne
      · simp [btInsert, h, lt_asymm h, string_ne_of_data_lt h,
          Ne.symm (string_ne_of_data_lt h)]
  | cons hd tl ih =>
      rcases lt_trichotomy k1.data k2.data with h12 | h12 | h12
      · rcases lt_trichotomy k1.data hd.1.data with h1 | h1 | h1
        · rcases lt_trichotomy k2.data hd.1.data with h2 | h2 | h2
          · simp [btInsert, h1, h2, h12, lt_asymm h12,
              Ne.symm (string_ne_of_data_lt h12),
              string_ne_of_data_lt h2, Ne.symm (string_ne_of_data_lt h2)]
          · have e := string_data_inj h2
            subst e
            simp [btInsert, h1, h12, lt_asymm h12,
              Ne.symm (string_ne_of_data_lt h12), lt_irrefl,
              string_ne_of_data_lt h1, Ne.symm (string_ne_of_data_lt h1)]
          · simp [btInsert, h1, h2, h12, lt_asymm h2,
              Ne.symm (string_ne_of_data_lt h2), lt_asymm h12,
              Ne.symm (string_ne_of_data_lt h12),
              string_ne_of_data_lt h1, Ne.symm (string_ne_of_data_lt h1)]
        · have e := string_data_inj h1
          subst e
          simp [btInsert, h12, lt_asymm h12,
            Ne.symm (string_ne_of_data_lt h12), lt_irrefl]
        · have h2 : hd.1.data < k2.data := lt_trans h1 h12
          simp [btInsert, h1, h2, h12, lt_asymm h1,
            Ne.symm (string_ne_of_data_lt h1), lt_asymm h2,
            Ne.symm (string_ne_of_data_lt h2), ih]
      · exact absurd (string_data_inj h12) hne
      · rcases lt_trichotomy k2.data hd.1.data with h2 | h2 | h2
        · rcases lt_trichotomy k1.data hd.1.data with h1 | h1 | h1
          · simp [btInsert, h1, h2, h12, lt_asymm h12,
              Ne.symm (string_ne_of_data_lt h12),
              string_ne_of_data_lt h2, Ne.symm (string_ne_of_data_lt h2)]
          · have e := string_data_inj h1
            subst e
            simp [btInsert, h2, h12, lt_asymm h12,
              Ne.symm (string_ne_of_data_lt h12), lt_irrefl,
              string_ne_of_data_lt h2, Ne.symm (string_ne_of_data_lt h2)]
          · simp [btInsert, h1, h2, h12, lt_asymm h1,
              Ne.symm (string_ne_of_data_lt h1), lt_asymm h12,
              Ne.symm (string_ne_of_data_lt h12),
              string_ne_of_data_lt h2, Ne.symm (string_ne_of_data_lt h2)]
        · have e := string_data_inj h2
          subst e
          simp [btInsert, h12, lt_asymm h12,
            Ne.symm (string_ne_of_data_lt h12), lt_irrefl]
        · have h1 : hd.1.data < k1.data := lt_trans h2 h12
          simp [btInsert, h1, h2, h12, lt_asymm h1,
            Ne.symm (string_ne_of_data_lt h1), lt_asymm h2,
            Ne.symm (string_ne_of_data_lt h2), ih]

/-- Folding the same multiset of distinct-name declarations into the
lookup table gives the same table whatever the discovery order. -/
theorem foldl_btInsert_perm :
    ∀ {l1 l2 : List (String × AstItem)}, l1.Perm l2 →
      (l1.map Prod.fst).Nodup →
      ∀ init : Lookup,
        l1.foldl (fun m e => btInsert e.1 e.2 m) init =
          l2.foldl (fun m e => btInsert e.1 e.2 m) init := by
  intro l1 l2 p
  induction p with
  | nil => intro _ _; rfl
  | cons x p ih =>
      intro h init
      simp only [List.foldl_cons]
      refine ih ?_ _
      simp only [List.map_cons, List.nodup_cons] at h
      exact h.2
  | swap x y l =>
      intro h init
      simp only [List.map_cons, List.nodup_cons, List.mem_cons] at h
      have hxy : y.1 ≠ x.1 := fun he => h.1 (Or.inl he)
      simp only [List.foldl_cons]
      rw [btInsert_comm x.1 y.1 x.2 y.2 (Ne.symm hxy) init]
  | trans p1 p2 ih1 ih2 =>
      intro h init
      rw [ih1 h init]
      refine ih2 ?_ _
      exact ((p1.map Prod.fst).nodup_iff).mp h

theorem btInsert_mem (k : String) (v : AstItem) :
    ∀ (m : Lookup) (x : String × AstItem),
      x ∈ btInsert k v m → x = (k, v) ∨ x ∈ m := by
  intro m
  induction m with
  | nil => intro x hx; exact Or.inl (by simpa [btInsert] using hx)
  | cons hd tl ih =>
      intro x hx
      by_cases h1 : k.data < hd.1.data
      · simp only [btInsert, if_pos h1, List.mem_cons] at hx
        rcases hx with h | h | h
        · exact Or.inl h
        · exact Or.inr (by simp [h])
        · exact Or.inr (by simp [h])
      · by_cases h2 : k = hd.1
        · simp only [btInsert, if_neg h1, if_pos h2, List.mem_cons] at hx
          rcases hx with h | h
          · exact Or.inl h
          · exact Or.inr (by simp [h])
        · simp only [btInsert, if_neg h1, if_neg h2, List.mem_cons] at hx
          rcases hx with h | h
          · exact Or.inr (by simp [h])
          · rcases ih x h with h3 | h3
            · exact Or.inl h3
            · exact Or.inr (by simp [h3])

theorem btInsert_pairwise (k : String) (v : AstItem) :
    ∀ m : Lookup,
      List.Pairwise (fun x y : String × AstItem => x.1.data < y.1.data) m →
      List.Pairwise (fun x y : String × AstItem => x.1.data < y.1.data)
        (btInsert k v m) := by
  intro m
  induction m with
  | nil => intro _; simp [btInsert]
  | cons hd tl ih =>
      intro hp
      rw [List.pairwise_cons] at hp
      by_cases h1 : k.data < hd.1.data
      · rw [btInsert, if_pos h1, List.pairwise_cons]
        refine ⟨?_, List.pairwise_cons.mpr hp⟩
        intro y hy
        rcases List.mem_cons.mp hy with rfl | hy2
        · exact h1
        · exact lt_trans h1 (hp.1 y hy2)
      · by_cases h2 : k = hd.1
        · rw [btInsert, if_neg h1, if_pos h2, List.pairwise_cons]
          exact ⟨fun y hy => h2 ▸ hp.1 y hy, hp.2⟩
        · rw [btInsert, if_neg h1, if_neg h2, List.pairwise_cons]
          refine ⟨?_, ih hp.2⟩
          intro y hy
          rcases btInsert_mem k v tl y hy with rfl | hy2
          · rcases lt_trichotomy k.data hd.1.data with hL | hL | hL
            · exact absurd hL h1
            · exact absurd (string_data_inj hL) h2
            · exact hL
          · exact hp.1 y hy2

/-- Whatever the extraction order, the lookup table is strictly sorted by
node name: iterating it visits nodes in the total order on their names. -/
theorem buildLookup_pairwise (entries : List (String × AstItem)) :
    List.Pairwise (fun x y : String × AstItem => x.1.data < y.1.data)
      (buildLookup entries) := by
  have hgen : ∀ (l : List (String × AstItem)) (init : Lookup),
      List.Pairwise (fun x y : String × AstItem => x.1.data < y.1.data)
        init →
      List.Pairwise (fun x y : String × AstItem => x.1.data < y.1.data)
        (l.foldl (fun m e => btInsert e.1 e.2 m) init) := by
    intro l
    induction l with
    | nil => intro init h; exact h
    | cons e rest ih =>
        intro init h
        simp only [List.foldl_cons]
        exact ih _ (btInsert_pairwise e.1 e.2 init h)
  exact hgen entries [] (by simp)

/-! ## The claims -/

/-- C1: For every node type in the lookup table and every syntactically
valid instance of it, the generated fold with no method overridden is the
identity: it returns a value structurally equal to its input, including
for unresolved fields (pure passthrough), for `Box` indirection (inner
value folded then re-wrapped), for sequences and delimited lists
(`FoldHelper::lift` maps each element while leaving separator metadata
untouched and rebuilding the same container kind), and for optionals
(`None` maps to `None`). -/
theorem c1_generated_fold_is_identity :
    (∀ v : Value, foldValue v = v)
    ∧ (∀ l : List Value, foldHelperLiftVec foldValue l = l)
    ∧ (∀ l : List (Value × Option String),
        foldHelperLiftDelimited foldValue l = l
        ∧ List.map Prod.snd (foldHelperLiftDelimited foldValue l) =
            List.map Prod.snd l)
    ∧ foldValueOpt none = none
    ∧ (∀ v : Value, foldValue (Value.boxed v) = Value.boxed (foldValue v))
    ∧ (∀ tok : String,
        foldValue (Value.unresolvedV tok) = Value.unresolvedV tok) := by
  refine ⟨foldValue_id, ?_, ?_, rfl, ?_, ?_⟩
  · intro l
    rw [← foldValueList_eq_lift]
    exact foldValueList_id l
  · intro l
    refine ⟨?_, ?_⟩
    · rw [← foldValueDelim_eq_lift]
      exact foldValueDelim_id l
    · rw [← foldValueDelim_eq_lift, foldValueDelim_id]
  · intro v
    rw [foldValue]
  · intro tok
    rw [foldValue]

/-- C2: The generation run is deterministic: two extraction orders that
list the same node declarations (with distinct names) build the same
lookup table and hence byte-identical content for all four output
artifacts, because the table is keyed by identifier and iterated in the
total order on names, not in discovery or insertion order. -/
theorem c2_generation_deterministic
    (entries1 entries2 : List (String × AstItem))
    (hperm : entries1.Perm entries2)
    (hnodup : (entries1.map Prod.fst).Nodup) :
    buildLookup entries1 = buildLookup entries2
    ∧ mainArtifacts (buildLookup entries1) =
        mainArtifacts (buildLookup entries2)
    ∧ List.Pairwise (fun x y : String × AstItem => x.1.data < y.1.data)
        (buildLookup entries1) := by
  have he : buildLookup entries1 = buildLookup entries2 :=
    foldl_btInsert_perm hperm hnodup []
  exact ⟨he, by rw [he], buildLookup_pairwise entries1⟩

theorem c2_witness :
    (([("A", terminalItem "A"), ("B", terminalItem "B")] :
        List (String × AstItem)).Perm
      [("B", terminalItem "B"), ("A", terminalItem "A")])
    ∧ (([("A", terminalItem "A"), ("B", terminalItem "B")].map
        Prod.fst).Nodup)
    ∧ (buildLookup [("A", terminalItem "A"), ("B", terminalItem "B")] =
        buildLookup [("B", terminalItem "B"), ("A", terminalItem "A")]
      ∧ mainArtifacts
          (buildLookup [("A", terminalItem "A"), ("B", terminalItem "B")]) =
        mainArtifacts
          (buildLookup [("B", terminalItem "B"), ("A", terminalItem "A")])
      ∧ List.Pairwise (fun x y : String × AstItem => x.1.data < y.1.data)
          (buildLookup [("A", terminalItem "A"), ("B", terminalItem "B")])) :=
  ⟨List.Perm.swap ("B", terminalItem "B") ("A", terminalItem "A") [],
   by simp,
   c2_generation_deterministic _ _
     (List.Perm.swap ("B", terminalItem "B") ("A", terminalItem "A") [])
     (by simp)⟩

/-- C3: The classifier tries strategies in a fixed first-match-wins
order — direct lookup hit, then `Box`, then `Vec`/`Delimited`, then
`Option` — where a sequence's element type recurses only through levels
1-2 (so `Vec<Box<Node>>` resolves but `Vec<Vec<Node>>` and
`Vec<Option<Node>>` do not) and an optional's inner type recurses only
through levels 1-3 (so `Option<Vec<Node>>` resolves but
`Option<Option<Node>>` does not). -/
theorem c3_classifier_first_match_order (lookup : Lookup) (kind : Kind)
    (name : Operand) (item : AstItem)
    (hN : lookup_get lookup "Node" = some item)
    (hB : lookup_get lookup "Box" = none)
    (hV : lookup_get lookup "Vec" = none)
    (hD : lookup_get lookup "Delimited" = none)
    (hO : lookup_get lookup "Option" = none) :
    (∀ (seg : PathSegment) (it : AstItem),
        lookup_get lookup seg.ident = some it →
        option_visit seg lookup kind name =
          simple_visit seg.ident lookup kind name)
    ∧ (option_visit (wrapSeg "Box" (segTy "Node")) lookup kind name).isSome
        = true
    ∧ option_visit (wrapSeg "Box" (wrapTy "Box" (segTy "Node")))
        lookup kind name = none
    ∧ option_visit (wrapSeg "Box" (wrapTy "Vec" (segTy "Node")))
        lookup kind name = none
    ∧ (option_visit (wrapSeg "Vec" (segTy "Node")) lookup kind name).isSome
        = true
    ∧ (option_visit (wrapSeg "Vec" (wrapTy "Box" (segTy "Node")))
        lookup kind name).isSome = true
    ∧ option_visit (wrapSeg "Vec" (wrapTy "Vec" (segTy "Node")))
        lookup kind name = none
    ∧ option_visit (wrapSeg "Vec" (wrapTy "Option" (segTy "Node")))
        lookup kind name = none
    ∧ (option_visit (wrapSeg "Delimited" (wrapTy "Box" (segTy "Node")))
        lookup kind name).isSome = true
    ∧ option_visit (wrapSeg "Delimited" (wrapTy "Option" (segTy "Node")))
        lookup kind name = none
    ∧ (option_visit (wrapSeg "Option" (segTy "Node")) lookup kind
        name).isSome = true
    ∧ (option_visit (wrapSeg "Option" (wrapTy "Box" (segTy "Node")))
        lookup kind name).isSome = true
    ∧ (option_visit (wrapSeg "Option" (wrapTy "Vec" (segTy "Node")))
        lookup kind name).isSome = true
    ∧ option_visit (wrapSeg "Option" (wrapTy "Option" (segTy "Node")))
        lookup kind name = none := by
  refine ⟨fun seg it h => option_visit_direct seg lookup kind name it h,
    ?_, ?_, ?_, ?_, ?_, ?_, ?_, ?_, ?_, ?_, ?_, ?_, ?_⟩
  all_goals first
    | (rw [option_visit_isSome]
       simp [optionResolves, vecResolves, boxResolves, directResolves,
         wrapSeg, segTy, wrapTy, first_arg, last_segment,
         PathSegment.ident, PathSegment.arguments, hN, hB, hV, hD, hO])
    | (apply option_visit_eq_none
       simp [optionResolves, vecResolves, boxResolves, directResolves,
         wrapSeg, segTy, wrapTy, first_arg, last_segment,
         PathSegment.ident, PathSegment.arguments, hN, hB, hV, hD, hO])

theorem c3_witness :
    lookup_get nodeLookup "Node" = some (terminalItem "Node")
    ∧ lookup_get nodeLookup "Box" = none
    ∧ lookup_get nodeLookup "Vec" = none
    ∧ lookup_get nodeLookup "Delimited" = none
    ∧ lookup_get nodeLookup "Option" = none
    ∧ ((option_visit (wrapSeg "Vec" (wrapTy "Box" (segTy "Node")))
          nodeLookup Kind.foldK (Operand.owned "_i.f")).isSome = true
      ∧ option_visit (wrapSeg "Vec" (wrapTy "Vec" (segTy "Node")))
          nodeLookup Kind.foldK (Operand.owned "_i.f") = none
      ∧ option_visit (wrapSeg "Option" (wrapTy "Option" (segTy "Node")))
          nodeLookup Kind.foldK (Operand.owned "_i.f") = none) :=
  ⟨rfl, rfl, rfl, rfl, rfl,
   (c3_classifier_first_match_order nodeLookup Kind.foldK
      (Operand.owned "_i.f") (terminalItem "Node")
      rfl rfl rfl rfl rfl).2.2.2.2.2.1,
   (c3_classifier_first_match_order nodeLookup Kind.foldK
      (Operand.owned "_i.f") (terminalItem "Node")
      rfl rfl rfl rfl rfl).2.2.2.2.2.2.1,
   (c3_classifier_first_match_order nodeLookup Kind.foldK
      (Operand.owned "_i.f") (terminalItem "Node")
      rfl rfl rfl rfl rfl).2.2.2.2.2.2.2.2.2.2.2.2.2⟩

/-- C4: If any node in the lookup table is a tagged union containing a
variant with named payload fields, generation fails fatally during
emission, and the failure occurs before any of the four output artifacts
is created: all per-node generation (main.rs 859-862) completes before
the first output file is opened (main.rs 876). -/
theorem c4_struct_variant_fatal (extracted : Lookup)
    (h : ∃ s ∈ (insertTerminals extracted).map Prod.snd,
        hasEnumStructVariant s = true) :
    mainArtifacts extracted =
      Except.error "Doesn\x27t support enum struct variants"
    ∧ writtenFiles extracted = [] := by
  have herr := foldGen_err (insertTerminals extracted)
    ((insertTerminals extracted).map Prod.snd) h emptyState
  have hm : mainArtifacts extracted =
      Except.error "Doesn\x27t support enum struct variants" := by
    rw [mainArtifacts]
    rw [runGenerate, herr]
    rfl
  refine ⟨hm, ?_⟩
  unfold writtenFiles
  rw [hm]

theorem c4_witness :
    (∃ s ∈ (insertTerminals badLookup).map Prod.snd,
        hasEnumStructVariant s = true)
    ∧ (mainArtifacts badLookup =
        Except.error "Doesn\x27t support enum struct variants"
      ∧ writtenFiles badLookup = []) :=
  ⟨by decide, c4_struct_variant_fatal badLookup (by decide)⟩

/-- C5 counterexample: a field typed bare `Box` matches no recognized
strategy (it is not in the lookup table and is not a recognized wrapper
chain), yet the program does not emit a skip marker or a passthrough for
it: classification reaches `first_arg`'s
"Expected at least 1 type argument here" panic (main.rs 375) and the
generation run aborts — refuting "extraction and emission never fail on
an unresolved field type". -/
theorem c5_counterexample :
    tyResolves ([] : Lookup) bareBoxTy = false
    ∧ tyPanics ([] : Lookup) bareBoxTy = true
    ∧ (first_arg
        (PathSegment.mk "Box" PathArguments.noneA).arguments).isNone =
        true := by
  decide

/-- C5 amended: a field type matching no strategy, whose classification
does not reach the missing-type-argument panic, is not an error:
read-only and mutable traversals emit the skip-comment marker naming
the field, the transform emits a pure passthrough of the field's value,
and emission of a node whose fields all avoid that panic never fails
because of an unresolved field (only the unsupported
enum-struct-variant shape fails). Within `tyPanics = false` the
collapsed `first_arg` never fires, so the model's outputs coincide with
the program's. -/
theorem c5_unresolved_field_leniency (lookup : Lookup) (ty : RsType)
    (name : Operand) (h : tyResolves lookup ty = false)
    (hp : tyPanics lookup ty = false) :
    visit ty lookup Kind.visitK name = "// Skipped field " ++ name.display
    ∧ visit ty lookup Kind.visitMutK name =
        "// Skipped field " ++ name.display
    ∧ visit ty lookup Kind.foldK name = name.owned_tokens
    ∧ (∀ (st : State) (s : AstItem) (vd : VariantData),
        s.item.body = Body.structB vd →
        (∀ f ∈ vdFields vd, tyPanics lookup f.ty = false) →
        ∃ st2, generate st lookup s = Except.ok st2) := by
  have hv : ∀ kind : Kind,
      visit ty lookup kind name =
        if kind = Kind.foldK then name.owned_tokens
        else "// Skipped field " ++ name.display := by
    intro kind
    unfold visit
    cases hl : last_segment ty with
    | none => rfl
    | some seg =>
        rw [tyResolves, hl] at h
        simp at h
        simp [option_visit_eq_none seg lookup kind name h]
  refine ⟨?_, ?_, ?_, ?_⟩
  · rw [hv]; rfl
  · rw [hv]; rfl
  · rw [hv]; rfl
  · intro st s vd hb _
    exact generate_ok st lookup s (by rw [hasEnumStructVariant, hb])

/-- C6 counterexample: the claim says exactly two explicitly named
sub-modules are always skipped, but three pairwise-distinct module names
(`fold`, `visit`, `visit_mut`) are all unconditionally skipped: the
ignored-modules list has length 3, not 2. -/
theorem c6_counterexample :
    modAction "../src" "fold" false = ModAction.skipIgnored
    ∧ modAction "../src" "visit" false = ModAction.skipIgnored
    ∧ modAction "../src" "visit_mut" false = ModAction.skipIgnored
    ∧ ("fold" : String) ≠ "visit"
    ∧ ("fold" : String) ≠ "visit_mut"
    ∧ ("visit" : String) ≠ "visit_mut"
    ∧ IGNORED_MODS.length = 3 := by
  decide

/-- C6 amended: during schema extraction, exactly three explicitly named
sub-modules (`fold`, `visit`, `visit_mut`, holding previously generated
output) are always skipped and never opened or parsed; every other
non-inline module declaration is followed to a same-directory `.rs` file
and recursively extracted, while inline modules are not inspected. -/
theorem c6_amended_module_skip (parent ident : String) :
    (modAction parent ident false = ModAction.skipIgnored ↔
      ident = "fold" ∨ ident = "visit" ∨ ident = "visit_mut")
    ∧ (ident ∉ IGNORED_MODS →
        modAction parent ident false =
          ModAction.followFile (parent ++ "/" ++ ident ++ ".rs"))
    ∧ modAction parent ident true = ModAction.skipInline
    ∧ IGNORED_MODS.length = 3 := by
  refine ⟨?_, ?_, rfl, rfl⟩
  · constructor
    · intro hskip
      by_cases hm : ident ∈ IGNORED_MODS
      · simpa [IGNORED_MODS] using hm
      · rw [modAction, if_neg (by simp), if_neg hm] at hskip
        exact absurd hskip (by simp)
    · intro hm
      have hmem : ident ∈ IGNORED_MODS := by
        rcases hm with rfl | rfl | rfl <;> simp [IGNORED_MODS]
      rw [modAction, if_neg (by simp), if_pos hmem]
  · intro hm
    rw [modAction, if_neg (by simp), if_neg hm]

/-- C7 counterexample: the node `Expr` is marked `extended_only`
(`eos_full`), yet none of its own generated function bodies contains the
guard helper `full!` at all: the guard is not wrapped around the node's
own body. -/
theorem c7_counterexample :
    eosItem.eos_full = true
    ∧ exceptIsOk (generate emptyState eosLookup eosItem) = true
    ∧ containsSub (stateOf (generate emptyState eosLookup eosItem)).fold_impl
        "full!" = false
    ∧ containsSub (stateOf (generate emptyState eosLookup eosItem)).visit_impl
        "full!" = false
    ∧ containsSub
        (stateOf (generate emptyState eosLookup eosItem)).visit_mut_impl
        "full!" = false := by
  decide

/-- C7 amended: for every field whose resolved node is marked
`extended_only` — directly or through a `Box`, `Vec`, `Delimited` or
`Option` wrapper chain, since the `eos_full` flag is threaded through
every classifier level — the emitted traversal expression at the call
site (inside the referring node's generated function body) is wrapped in
the `full!` guard helper; the `extended_only` node's own functions are
instead guarded by the `cfg` feature attribute the `#full` marker parses
to; the helper expands to a no-op passthrough of its argument when the
`full` feature is enabled and to a statically-unreachable marker when it
is disabled. -/
theorem c7_amended_full_guard (lookup : Lookup) (kind : Kind)
    (name : Operand) (e : String) :
    (∀ (ty : RsType) (seg : PathSegment) (res : String),
        last_segment ty = some seg →
        option_visit seg lookup kind name = some (res, true) →
        visit ty lookup kind name = "full!(" ++ res ++ ")")
    ∧ (∀ (seg : PathSegment) (it : AstItem),
        lookup_get lookup seg.ident = some it →
        (option_visit seg lookup kind name).map Prod.snd =
          some it.eos_full)
    ∧ (lookup_get lookup "Box" = none →
        ∀ (n : String) (it : AstItem), lookup_get lookup n = some it →
        (option_visit (wrapSeg "Box" (segTy n)) lookup kind name).map
          Prod.snd = some it.eos_full)
    ∧ (lookup_get lookup "Vec" = none →
        ∀ (n : String) (it : AstItem), lookup_get lookup n = some it →
        (option_visit (wrapSeg "Vec" (segTy n)) lookup kind name).map
          Prod.snd = some it.eos_full)
    ∧ (lookup_get lookup "Delimited" = none →
        ∀ (n : String) (it : AstItem), lookup_get lookup n = some it →
        (option_visit (wrapSeg "Delimited" (segTy n)) lookup kind
          name).map Prod.snd = some it.eos_full)
    ∧ (lookup_get lookup "Option" = none →
        ∀ (n : String) (it : AstItem), lookup_get lookup n = some it →
        (option_visit (wrapSeg "Option" (segTy n)) lookup kind name).map
          Prod.snd = some it.eos_full)
    ∧ full_expand true e = e
    ∧ full_expand false e = "unreachable!()"
    ∧ full_attr_parse true = ("#[cfg(feature = \"full\")]", true) := by
  refine ⟨?_, ?_, ?_, ?_, ?_, ?_, rfl, rfl, rfl⟩
  · intro ty seg res h1 h2
    simp [visit, h1, h2]
  · intro seg it h
    rw [option_visit_direct seg lookup kind name it h]
    cases kind <;> simp [simple_visit, h]
  · intro hB n it h
    cases kind <;>
      simp [option_visit, vec_visit, box_visit, simple_visit, wrapResult,
        first_arg, last_segment, wrapSeg, segTy, PathSegment.ident,
        PathSegment.arguments, hB, h]
  · intro hV n it h
    cases kind <;>
      simp [option_visit, vec_visit, box_visit, simple_visit, wrapResult,
        first_arg, last_segment, wrapSeg, segTy, PathSegment.ident,
        PathSegment.arguments, hV, h]
  · intro hD n it h
    cases kind <;>
      simp [option_visit, vec_visit, box_visit, simple_visit, wrapResult,
        first_arg, last_segment, wrapSeg, segTy, PathSegment.ident,
        PathSegment.arguments, hD, h]
  · intro hO n it h
    cases kind <;>
      simp [option_visit, vec_visit, box_visit, simple_visit, wrapResult,
        first_arg, last_segment, wrapSeg, segTy, PathSegment.ident,
        PathSegment.arguments, hO, h]

theorem c7_witness :
    lookup_get eosLookup "Box" = none
    ∧ lookup_get eosLookup "Expr" = some eosItem
    ∧ eosItem.eos_full = true
    ∧ (option_visit (wrapSeg "Box" (segTy "Expr")) eosLookup Kind.foldK
        (Operand.owned "_i.e")).map Prod.snd = some eosItem.eos_full :=
  ⟨rfl, rfl, rfl,
   ((c7_amended_full_guard eosLookup Kind.foldK (Operand.owned "_i.e")
      "x").2.2.1) rfl "Expr" eosItem rfl⟩

/-- C8: A span-aggregation implementation is emitted for every node
except the designated position-marker terminal itself; the visitor is
seeded with an absent aggregate, the first position encountered
initializes it, each subsequent position is combined via the join
operation, and a node with zero position markers yields an absent
aggregate. -/
theorem c8_span_aggregation {α : Type} (join : α → α → Option α)
    (st : State) (lookup : Lookup) (s : AstItem) (st2 : State)
    (hgen : generate st lookup s = Except.ok st2) :
    (under_name s.item.ident = "span" →
      st2.spanned_impls = st.spanned_impls)
    ∧ (under_name s.item.ident ≠ "span" →
        st2.spanned_impls = st.spanned_impls ++
          spanned_impl_text s.features (under_name s.item.ident)
            s.item.ident)
    ∧ span_collect join [] = none
    ∧ (∀ sp : α, span_step join none sp = some sp)
    ∧ (∀ s1 s2 : α, span_step join (some s1) s2 = join s1 s2)
    ∧ (∀ (sp : α) (rest : List α),
        span_collect join (sp :: rest) =
          rest.foldl (span_step join) (some sp)) := by
  have hs := generate_spanned st lookup s st2 hgen
  refine ⟨?_, ?_, rfl, fun sp => rfl, fun s1 s2 => rfl,
    fun sp rest => rfl⟩
  · intro h
    rw [hs]
    simp [h]
  · intro h
    rw [hs]
    simp [h]

theorem c8_witness :
    generate emptyState [] (terminalItem "Ident") =
      Except.ok (stateOf (generate emptyState [] (terminalItem "Ident")))
    ∧ ((under_name (terminalItem "Ident").item.ident = "span" →
        (stateOf (generate emptyState []
          (terminalItem "Ident"))).spanned_impls =
          emptyState.spanned_impls)
      ∧ (under_name (terminalItem "Ident").item.ident ≠ "span" →
          (stateOf (generate emptyState []
            (terminalItem "Ident"))).spanned_impls =
            emptyState.spanned_impls ++
              spanned_impl_text (terminalItem "Ident").features
                (under_name (terminalItem "Ident").item.ident)
                (terminalItem "Ident").item.ident)
      ∧ span_collect (fun a b : Nat => some (max a b)) [] = none
      ∧ (∀ sp : Nat,
          span_step (fun a b : Nat => some (max a b)) none sp = some sp)
      ∧ (∀ s1 s2 : Nat,
          span_step (fun a b : Nat => some (max a b)) (some s1) s2 =
            some (max s1 s2))
      ∧ (∀ (sp : Nat) (rest : List Nat),
          span_collect (fun a b : Nat => some (max a b)) (sp :: rest) =
            rest.foldl (span_step (fun a b : Nat => some (max a b)))
              (some sp))) :=
  ⟨rfl,
   c8_span_aggregation (fun a b : Nat => some (max a b)) emptyState []
     (terminalItem "Ident")
     (stateOf (generate emptyState [] (terminalItem "Ident"))) rfl⟩

/-- C9 counterexample: with groups of lengths 3 and 2, the primary error
is anchored at the second expression and cites "expected 3 element(s),
got 2", but the note is anchored at the first expression (span 10) — the
longer group — not at the shorter of the two groups (the second, span
20), contrary to the claim. -/
theorem c9_counterexample :
    exprTupleA3.args.length = 3
    ∧ exprTupleB2.args.length = 2
    ∧ exprTupleA3.span = 10
    ∧ exprTupleB2.span = 20
    ∧ (demo (eval exprTupleA3 exprTupleB2)).1 = ""
    ∧ (diagOf (eval exprTupleA3 exprTupleB2)).message =
        "expected 3 element(s), got 2"
    ∧ (diagOf (eval exprTupleA3 exprTupleB2)).span = 20
    ∧ (diagOf (eval exprTupleA3 exprTupleB2)).note_span = some 10
    ∧ (diagOf (eval exprTupleA3 exprTupleB2)).note_span ≠
        some exprTupleB2.span := by
  decide

/-- C9 amended: on any arity mismatch the entry point rejects the input
with a failure citing "expected A element(s), got B" (A the first
group's arity, B the second's), the primary error anchored at the second
expression and the note anchored at the first expression (whichever of
the two is shorter), and produces no acknowledgement output; equal
arities produce the acknowledgement. -/
theorem c9_amended_arity_mismatch (a b : ExprTuple)
    (h : a.args.length ≠ b.args.length) :
    eval a b = Except.error
      { span := b.span,
        message := "expected " ++ toString a.args.length ++
          " element(s), got " ++ toString b.args.length,
        note_span := some a.span,
        note := some "because of this" }
    ∧ (demo (eval a b)).1 = ""
    ∧ (demo (eval a b)).2 ≠ none
    ∧ (∀ a2 b2 : ExprTuple, a2.args.length = b2.args.length →
        eval a2 b2 = Except.ok "println!(\"All good!\")") := by
  refine ⟨?_, ?_, ?_, ?_⟩
  · simp [eval, h]
  · simp [demo, eval, h]
  · simp [demo, eval, h]
  · intro a2 b2 h2
    simp [eval, h2]

theorem c9_witness :
    exprTupleA2.args.length ≠ exprTupleB3.args.length
    ∧ (eval exprTupleA2 exprTupleB3 = Except.error
        { span := exprTupleB3.span,
          message := "expected " ++ toString exprTupleA2.args.length ++
            " element(s), got " ++ toString exprTupleB3.args.length,
          note_span := some exprTupleA2.span,
          note := some "because of this" }
      ∧ (demo (eval exprTupleA2 exprTupleB3)).1 = ""
      ∧ (demo (eval exprTupleA2 exprTupleB3)).2 ≠ none
      ∧ (∀ a2 b2 : ExprTuple, a2.args.length = b2.args.length →
          eval a2 b2 = Except.ok "println!(\"All good!\")")) :=
  ⟨by decide,
   c9_amended_arity_mismatch exprTupleA2 exprTupleB3 (by decide)⟩

/-- C10: Field classification inspects only the last segment of a
field's type path: qualified-self paths and non-path types have no last
segment and are classified unresolved (skip for read/mutate, passthrough
for fold); a path whose final segment names a lookup-table entry is
classified direct whatever its leading segments; and acceptance of a
segment is exactly the name-directed resolution predicate (final segment
`Box`, `Vec`, `Delimited` or `Option` triggering the corresponding
container strategy), independent of traversal kind and operand. -/
theorem c10_last_segment_classification (lookup : Lookup) (kind : Kind)
    (name : Operand) :
    (∀ segs : List PathSegment,
        last_segment (RsType.pathT true segs) = none)
    ∧ last_segment RsType.otherT = none
    ∧ (∀ segs : List PathSegment,
        visit (RsType.pathT true segs) lookup Kind.foldK name =
          name.owned_tokens
        ∧ visit (RsType.pathT true segs) lookup Kind.visitK name =
            "// Skipped field " ++ name.display
        ∧ visit (RsType.pathT true segs) lookup Kind.visitMutK name =
            "// Skipped field " ++ name.display)
    ∧ (visit RsType.otherT lookup Kind.foldK name = name.owned_tokens
        ∧ visit RsType.otherT lookup Kind.visitK name =
            "// Skipped field " ++ name.display)
    ∧ (∀ (pre : List PathSegment) (seg : PathSegment),
        last_segment (RsType.pathT false (pre ++ [seg])) = some seg)
    ∧ (∀ seg : PathSegment,
        (option_visit seg lookup kind name).isSome =
          optionResolves lookup seg)
    ∧ (∀ (seg : PathSegment) (it : AstItem),
        lookup_get lookup seg.ident = some it →
        option_visit seg lookup kind name =
          simple_visit seg.ident lookup kind name
        ∧ (simple_visit seg.ident lookup kind name).isSome = true) := by
  refine ⟨fun segs => by simp [last_segment], rfl, ?_, ⟨rfl, rfl⟩, ?_,
    fun seg => option_visit_isSome seg lookup kind name, ?_⟩
  · intro segs
    refine ⟨?_, ?_, ?_⟩ <;> simp [visit, last_segment]
  · intro pre seg
    simp [last_segment, List.getLast?_append_cons]
  · intro seg it h
    refine ⟨option_visit_direct seg lookup kind name it h, ?_⟩
    rw [simple_visit_isSome]
    simp [directResolves, h]

theorem c5_witness :
    tyResolves ([] : Lookup) RsType.otherT = false
    ∧ tyPanics ([] : Lookup) RsType.otherT = false
    ∧ (visit RsType.otherT [] Kind.visitK (Operand.owned "_i.x") =
        "// Skipped field " ++ (Operand.owned "_i.x").display
      ∧ visit RsType.otherT [] Kind.visitMutK (Operand.owned "_i.x") =
          "// Skipped field " ++ (Operand.owned "_i.x").display
      ∧ visit RsType.otherT [] Kind.foldK (Operand.owned "_i.x") =
          (Operand.owned "_i.x").owned_tokens
      ∧ (∀ (st : State) (s : AstItem) (vd : VariantData),
          s.item.body = Body.structB vd →
          (∀ f ∈ vdFields vd, tyPanics [] f.ty = false) →
          ∃ st2, generate st [] s = Except.ok st2)) :=
  ⟨rfl, rfl, c5_unresolved_field_leniency [] RsType.otherT
    (Operand.owned "_i.x") rfl rfl⟩

end Syn
